import Mathlib

/-!
# Results API server: start-up wiring (`cmd/api/main.go`)

`main` is a straight-line start-up procedure.  Its only inputs are the process
environment and the outcomes of the library calls it makes; its observable
behaviour is the ordered sequence of calls it performs, ending either in
`log.Fatal`/`log.Fatalf` (which exit the process) or in `s.Serve`.

The embedding makes both explicit.  A `World` fixes the environment and the
outcome (nil error or an error text) of every fallible library call; `main`
returns the trace of calls in program order.  Values handed from one call to
the next (the database handle, the clientset, the authorization checker, the
service) are symbolic terms recording the call that produced them, so that the
trace shows which value reaches which call.

Go strings are modelled by `String`; `main` only compares them with the empty
string and concatenates them.  `flag.Parse` is recorded as a call that
returns: no flag is declared in this file, and a command line it rejects leaves
the process before the first statement modelled here.
-/

namespace Main

/-! ## Environment -/

/-- Process environment: `none` is an unset variable. -/
abbrev Env := String → Option String

/-- Go's `os.Getenv`: the value of the variable, which is the empty string
when the variable is unset. -/
def Getenv (env : Env) (key : String) : String :=
  (env key).getD ""

/-! ## Values passed between calls -/

/-- Handle returned by `gorm.Open(mysql.Open(dsn), &gorm.Config{})`. -/
inductive DB where
  | gormOpen (dsn : String)
  deriving DecidableEq, Repr

/-- Value returned by `rest.InClusterConfig()`. -/
inductive RestConfig where
  | inClusterConfig
  deriving DecidableEq, Repr

/-- Value returned by `kubernetes.NewForConfig(config)`. -/
inductive Clientset where
  | newForConfig (config : RestConfig)
  deriving DecidableEq, Repr

/-- Value returned by `auth.NewRBAC(k8s)`. -/
inductive Checker where
  | newRBAC (k8s : Clientset)
  deriving DecidableEq, Repr

/-- Service options of package `v1alpha2`; `main` uses `WithAuth` only. -/
inductive ServerOption where
  | withAuth (c : Checker)
  deriving DecidableEq, Repr

/-- Value returned by `v1alpha2.New(db, opts...)`. -/
inductive ResultsServer where
  | new (db : DB) (opts : List ServerOption)
  deriving DecidableEq, Repr

/-- Value returned by `credentials.NewServerTLSFromFile(cert, key)`. -/
inductive Creds where
  | newServerTLSFromFile (certFile keyFile : String)
  deriving DecidableEq, Repr

/-- Values of `healthpb.HealthCheckResponse_ServingStatus`. -/
inductive ServingStatus where
  | unknown | serving | notServing | serviceUnknown
  deriving DecidableEq, Repr

/-! ## Calls observed during a run -/

/-- One call made by `main`, with its arguments. -/
inductive Event where
  | flagParse
  /-- Call `log.Fatal(msg)`: prints and exits with status 1. -/
  | logFatal (msg : String)
  /-- Call `log.Fatalf(...)` with the formatted text: prints and exits. -/
  | logFatalf (msg : String)
  /-- Call `gorm.Open(mysql.Open(dsn), &gorm.Config{})`. -/
  | mysqlOpen (dsn : String)
  | inClusterConfig
  | newForConfig (config : RestConfig)
  | newServerTLSFromFile (certFile keyFile : String)
  /-- Call `v1alpha2.New(db, opts...)`. -/
  | v1alpha2New (db : DB) (opts : List ServerOption)
  /-- Call `grpc.NewServer(grpc.Creds(creds))`. -/
  | grpcNewServer (creds : Creds)
  /-- Call `v1alpha2pb.RegisterResultsServer(s, srv)`. -/
  | registerResultsServer (srv : ResultsServer)
  | reflectionRegister
  | healthNewServer
  | setServingStatus (service : String) (status : ServingStatus)
  | registerHealthServer
  /-- Call `net.Listen(network, address)`. -/
  | netListen (network address : String)
  | logPrintf (msg : String)
  /-- Call `s.Serve(lis)`. -/
  | serve
  deriving DecidableEq, Repr

/-- Everything outside `main` that decides a run.  Each `…Err` field is the
error returned by the named call: `none` is a nil error, `some e` an error
whose text is `e`.  `serveResult` is `none` when `Serve` does not return. -/
structure World where
  env : Env
  gormOpenErr : Option String
  inClusterConfigErr : Option String
  newForConfigErr : Option String
  tlsErr : Option String
  newErr : Option String
  listenErr : Option String
  serveResult : Option (Option String)

/-- Text printed by `fmt.Sprint(err)` for an error value that may be nil. -/
def sprintErr : Option String → String
  | none => "<nil>"
  | some e => e

/-- The DSN built on line 49:
`fmt.Sprintf("%s:%s@%s(%s)/%s?parseTime=true", user, pass, protocol, addr, name)`. -/
def dbURI (user pass protocol addr name : String) : String :=
  user ++ ":" ++ pass ++ "@" ++ protocol ++ "(" ++ addr ++ ")/" ++ name ++ "?parseTime=true"

/-- Lines 87-98 of `main`: pick the port, listen, serve. -/
def listenAndServe (w : World) : List Event :=
  let port := Getenv w.env "PORT"
  let port := if port = "" then "50051" else port
  Event.netListen "tcp" (":" ++ port) ::
  match w.listenErr with
  | some err => [Event.logFatalf ("failed to listen: " ++ err)]
  | none =>
    Event.logPrintf ("Listening on :" ++ port ++ "...") ::
    Event.serve ::
    match w.serveResult with
    | none => []
    | some err => [Event.logFatal (sprintErr err)]

/-- Lines 71-85 of `main`: build the service with its authorization checker,
create the gRPC server and register the services, then go on to listen. -/
def registerServers (w : World) (db : DB) (k8s : Clientset) (creds : Creds) : List Event :=
  Event.v1alpha2New db [ServerOption.withAuth (Checker.newRBAC k8s)] ::
  match w.newErr with
  | some err => [Event.logFatalf ("failed to create server: " ++ err)]
  | none =>
    let v1a2 := ResultsServer.new db [ServerOption.withAuth (Checker.newRBAC k8s)]
    Event.grpcNewServer creds ::
    Event.registerResultsServer v1a2 ::
    Event.reflectionRegister ::
    Event.healthNewServer ::
    Event.setServingStatus "tekton.results.v1alpha2.Results" ServingStatus.serving ::
    Event.registerHealthServer ::
    listenAndServe w

/-- Lines 55-69 of `main`: Kubernetes client and TLS key pair. -/
def clients (w : World) (db : DB) : List Event :=
  Event.inClusterConfig ::
  match w.inClusterConfigErr with
  | some err => [Event.logFatal ("error getting kubernetes client config:" ++ err)]
  | none =>
    let config := RestConfig.inClusterConfig
    Event.newForConfig config ::
    match w.newForConfigErr with
    | some err => [Event.logFatal ("error creating kubernetes clientset:" ++ err)]
    | none =>
      let k8s := Clientset.newForConfig config
      Event.newServerTLSFromFile "/etc/tls/tls.crt" "/etc/tls/tls.key" ::
      match w.tlsErr with
      | some err => [Event.logFatalf ("error loading TLS key pair: " ++ err)]
      | none =>
        registerServers w db k8s
          (Creds.newServerTLSFromFile "/etc/tls/tls.crt" "/etc/tls/tls.key")

/-- The function `main`: the calls it makes, in order, in world `w`. -/
def main (w : World) : List Event :=
  Event.flagParse ::
  let user := Getenv w.env "DB_USER"
  let pass := Getenv w.env "DB_PASSWORD"
  if user = "" ∨ pass = "" then
    [Event.logFatal "Must provide both DB_USER and DB_PASSWORD"]
  else
    let uri := dbURI user pass (Getenv w.env "DB_PROTOCOL") (Getenv w.env "DB_ADDR")
      (Getenv w.env "DB_NAME")
    Event.mysqlOpen uri ::
    match w.gormOpenErr with
    | some err => [Event.logFatalf ("failed to open the results.db: " ++ err)]
    | none => clients w (DB.gormOpen uri)

/-- Environment given by a finite list of bindings (first binding wins). -/
def envOf (bindings : List (String × String)) : Env :=
  fun key => (bindings.find? (fun kv => kv.1 == key)).map Prod.snd

/-- World in which every library call succeeds and `Serve` keeps serving. -/
def happyWorld (bindings : List (String × String)) : World :=
  { env := envOf bindings
    gormOpenErr := none
    inClusterConfigErr := none
    newForConfigErr := none
    tlsErr := none
    newErr := none
    listenErr := none
    serveResult := none }

/-- Calls that create the gRPC server, register a service on it, open the
listener or serve. -/
def Event.isServerCall : Event → Bool
  | Event.grpcNewServer _ => true
  | Event.registerResultsServer _ => true
  | Event.reflectionRegister => true
  | Event.healthNewServer => true
  | Event.setServingStatus _ _ => true
  | Event.registerHealthServer => true
  | Event.netListen _ _ => true
  | Event.serve => true
  | _ => false

/-- Registrations of a Results service on the gRPC server. -/
def Event.isResultsRegistration : Event → Bool
  | Event.registerResultsServer _ => true
  | _ => false

/-- The DSN `main` builds from the environment of `w`. -/
def World.dsn (w : World) : String :=
  dbURI (Getenv w.env "DB_USER") (Getenv w.env "DB_PASSWORD") (Getenv w.env "DB_PROTOCOL")
    (Getenv w.env "DB_ADDR") (Getenv w.env "DB_NAME")

/-- The run gets past every start-up step before the listener: both database
credentials are set and no library call before `net.Listen` fails. -/
def World.startsUp (w : World) : Prop :=
  Getenv w.env "DB_USER" ≠ "" ∧ Getenv w.env "DB_PASSWORD" ≠ "" ∧ w.gormOpenErr = none ∧
    w.inClusterConfigErr = none ∧ w.newForConfigErr = none ∧ w.tlsErr = none ∧ w.newErr = none

/-- Characters that separate the fields of the DSN format
`user:password@protocol(address)/dbname?params`. -/
def delimiters : List Char := [':', '@', '(', ')', '/', '?']

/-- The string contains none of the delimiter characters. -/
def delimiterFree (s : String) : Prop :=
  ∀ c ∈ s.data, c ∉ delimiters

instance (s : String) : Decidable (delimiterFree s) := by
  unfold delimiterFree
  infer_instance

/-- The DSN built from the five fields splits back into those same fields:
every way of reading it as `user:password@protocol(address)/dbname?parseTime=true`
yields the fields it was built from.  The property is one of the format alone
and fixes no parser: a DSN with a single reading is read back correctly by
whatever reads the format. -/
def SplitsBack (user pass protocol addr name : String) : Prop :=
  ∀ user2 pass2 protocol2 addr2 name2 : String,
    dbURI user2 pass2 protocol2 addr2 name2 = dbURI user pass protocol addr name →
      user2 = user ∧ pass2 = pass ∧ protocol2 = protocol ∧ addr2 = addr ∧ name2 = name

/-- The service `main` is written to register: `v1alpha2.New` applied to the
opened database and the single option `WithAuth(NewRBAC(k8s))`, with `k8s`
built from the in-cluster configuration. -/
def guardedServer (dsn : String) : ResultsServer :=
  ResultsServer.new (DB.gormOpen dsn)
    [ServerOption.withAuth (Checker.newRBAC (Clientset.newForConfig RestConfig.inClusterConfig))]

end Main


/-!
# The authorization gate behind `auth.NewRBAC`

`main` only constructs the gate (`auth.NewRBAC(k8s)`) and hands it to the
service; the packages `pkg/api/server/v1alpha2` and `.../auth` that implement it
are not part of the sources at hand.  The definitions of this section follow the
specification (sections 3 to 7) instead: data model, identity extractor,
resource mapper, authority client, decision cache and the per-call state
machine.
-/

namespace Gate

/-- Modelled from the spec: `CallIdentity` of the absent `auth` package, an
opaque identity string plus extra attributes such as group memberships. -/
structure CallIdentity where
  identity : String
  attributes : List String
  deriving DecidableEq, Repr

/-- Modelled from the spec: the verb enumeration of `AuthorizationTuple`
(absent `auth` package). -/
inductive Verb where
  | get | list | create | update | delete | watch
  deriving DecidableEq, Repr

/-- Modelled from the spec: `AuthorizationTuple` of the absent `auth` package.
The members of the resource-type enumeration are not listed by the spec, so a
resource type is kept by name. -/
structure AuthorizationTuple where
  ns : String
  resourceType : String
  verb : Verb
  resourceName : Option String
  deriving DecidableEq, Repr

/-- Modelled from the spec: `Decision` of the absent `auth` package. -/
structure Decision where
  allowed : Bool
  reason : Option String
  deriving DecidableEq, Repr

/-- Modelled from the spec: the error taxonomy of section 7 (absent `auth`
package); a plain policy denial is not an error. -/
inductive GateError where
  | authenticationError
  | unmappedMethodError
  | authorityUnavailableError
  deriving DecidableEq, Repr

/-- Modelled from the spec: the credential attached to a call by the transport
layer (absent `auth` package): it may be malformed, expired or valid. -/
inductive Credential where
  | malformed
  | expired (id : CallIdentity)
  | valid (id : CallIdentity)
  deriving DecidableEq, Repr

/-- Modelled from the spec: decoded request message (absent generated proto
package), read by the per-method extraction rules. -/
structure Payload where
  fields : List (String × String)
  deriving DecidableEq, Repr

/-- Modelled from the spec: one inbound call as the transport layer delivers it
to the gate (absent `auth` package); `now` is its arrival time. -/
structure Call where
  credential : Option Credential
  method : String
  payload : Payload
  now : Nat

/-- Modelled from the spec: a mapping rule of the Resource Mapper (absent
`auth` package): static resource type and verb, and the extraction rule giving
the namespace and the resource name found in the payload. -/
structure MappingRule where
  resourceType : String
  verb : Verb
  extract : Payload → String × Option String

/-- Modelled from the spec: answer of the remote RBAC authority to one
attempt (absent Kubernetes client): allow or deny, a network error, or no
answer within the timeout. -/
inductive AuthorityReply where
  | answer (allowed : Bool)
  | networkError
  | timeout
  deriving DecidableEq, Repr

/-- Modelled from the spec: the remote RBAC authority as a black box (absent
Kubernetes client), asked by attempt number. -/
abbrev Authority := Nat → CallIdentity → AuthorizationTuple → AuthorityReply

/-- Modelled from the spec: an entry of the optional decision cache (absent
`auth` package), keyed by identity and tuple. -/
structure CacheEntry where
  identity : CallIdentity
  tuple : AuthorizationTuple
  decision : Decision
  storedAt : Nat
  deriving DecidableEq, Repr

/-- Modelled from the spec: externally supplied configuration of the gate
(absent `auth` package): the mapping registry, the retry budget of the
authority client, and the cache time-to-live (`none`: caching disabled). -/
structure Config where
  registry : List (String × MappingRule)
  retries : Nat
  cacheTTL : Option Nat

/-- Modelled from the spec: states of the per-call state machine of section
4.4 (absent `auth` package). -/
inductive GateState where
  | received | identityExtracted | tupleMapped | decisionPending
  | allowed | denied | errored
  deriving DecidableEq, Repr

/-- Modelled from the spec: what the gate reports to the transport layer
(absent `auth` package): allow, or a denial or error with its class and the
reason string shown to the caller. -/
inductive GateResult where
  | allowed
  | denied (error : Option GateError) (reason : String)
  | errored (error : GateError) (reason : String)
  deriving DecidableEq, Repr

/-- Modelled from the spec: everything one pass through the gate produces
(absent `auth` package): the states traversed, the result, the number of
authority round-trips, the cache afterwards, and whether control passed on to
the protected handler. -/
structure Run where
  path : List GateState
  result : GateResult
  roundTrips : Nat
  cache : List CacheEntry
  handlerInvoked : Bool

/-- Modelled from the spec: the Identity Extractor of section 4.1 (absent
`auth` package): fails with `AuthenticationError` when no credential is
present, the credential is malformed, or the credential has expired. -/
def extractIdentity : Option Credential → Except GateError CallIdentity
  | none => Except.error GateError.authenticationError
  | some Credential.malformed => Except.error GateError.authenticationError
  | some (Credential.expired _) => Except.error GateError.authenticationError
  | some (Credential.valid id) => Except.ok id

/-- Modelled from the spec: registry lookup of the Resource Mapper (absent
`auth` package). -/
def findRule (registry : List (String × MappingRule)) (method : String) : Option MappingRule :=
  (registry.find? (fun entry => entry.1 == method)).map Prod.snd

/-- Modelled from the spec: the Resource Mapper of section 4.2 (absent `auth`
package): a registered method yields its tuple, an unregistered one fails
closed with `UnmappedMethodError`. -/
def mapMethod (registry : List (String × MappingRule)) (method : String) (payload : Payload) :
    Except GateError AuthorizationTuple :=
  match findRule registry method with
  | none => Except.error GateError.unmappedMethodError
  | some rule =>
    Except.ok
      { ns := (rule.extract payload).1
        resourceType := rule.resourceType
        verb := rule.verb
        resourceName := (rule.extract payload).2 }

/-- Modelled from the spec: the `Decision` the authority client builds from an
allow or deny answer (absent `auth` package). -/
def decisionOf (allowed : Bool) : Decision :=
  { allowed := allowed, reason := if allowed then none else some "not authorized" }

/-- Modelled from the spec: the RBAC Authority Client of section 4.3 (absent
`auth` package), from attempt `attempt` with `retries` retries left: the first
answer is the decision; a network error or timeout is retried while retries
remain and is `AuthorityUnavailableError` after that.  The second component
counts the round-trips made. -/
def queryFrom (authority : Authority) (id : CallIdentity) (tuple : AuthorizationTuple)
    (attempt : Nat) : Nat → Except GateError Decision × Nat
  | 0 =>
    match authority attempt id tuple with
    | AuthorityReply.answer allowed => (Except.ok (decisionOf allowed), attempt + 1)
    | _ => (Except.error GateError.authorityUnavailableError, attempt + 1)
  | retries + 1 =>
    match authority attempt id tuple with
    | AuthorityReply.answer allowed => (Except.ok (decisionOf allowed), attempt + 1)
    | _ => queryFrom authority id tuple (attempt + 1) retries

/-- Modelled from the spec: the authority client called by the gate (absent
`auth` package). -/
def queryAuthority (cfg : Config) (authority : Authority) (id : CallIdentity)
    (tuple : AuthorizationTuple) : Except GateError Decision × Nat :=
  queryFrom authority id tuple 0 cfg.retries

/-- Modelled from the spec: lookup in the decision cache of section 5 (absent
`auth` package): the entry for this identity and tuple, served only within its
time-to-live. -/
def lookupCache (ttl : Option Nat) (cache : List CacheEntry) (id : CallIdentity)
    (tuple : AuthorizationTuple) (now : Nat) : Option Decision :=
  match ttl with
  | none => none
  | some t =>
    (cache.find? (fun e => decide (e.identity = id ∧ e.tuple = tuple) &&
      decide (e.storedAt ≤ now ∧ now < e.storedAt + t))).map CacheEntry.decision

/-- Modelled from the spec: recording a fresh decision in the cache (absent
`auth` package); nothing is kept when caching is disabled. -/
def storeCache (ttl : Option Nat) (cache : List CacheEntry) (id : CallIdentity)
    (tuple : AuthorizationTuple) (d : Decision) (now : Nat) : List CacheEntry :=
  match ttl with
  | none => cache
  | some _ => { identity := id, tuple := tuple, decision := d, storedAt := now } :: cache

/-- Modelled from the spec: the end of a call for which a `Decision` was
obtained (absent `auth` package): `Allowed` passes control to the handler,
`Denied` carries the reason "not authorized". -/
def conclude (d : Decision) (roundTrips : Nat) (cache : List CacheEntry) : Run :=
  if d.allowed then
    { path := [GateState.received, GateState.identityExtracted, GateState.tupleMapped,
        GateState.decisionPending, GateState.allowed]
      result := GateResult.allowed
      roundTrips := roundTrips
      cache := cache
      handlerInvoked := true }
  else
    { path := [GateState.received, GateState.identityExtracted, GateState.tupleMapped,
        GateState.decisionPending, GateState.denied]
      result := GateResult.denied none (d.reason.getD "not authorized")
      roundTrips := roundTrips
      cache := cache
      handlerInvoked := false }

/-- Modelled from the spec: the Authorization Gate of section 4.4 (absent
`auth` package): extract identity, map to tuple, obtain a decision from the
cache or the authority, then allow or reject. -/
def gate (cfg : Config) (authority : Authority) (cache : List CacheEntry) (call : Call) : Run :=
  match extractIdentity call.credential with
  | Except.error e =>
    { path := [GateState.received, GateState.errored]
      result := GateResult.errored e "not authenticated"
      roundTrips := 0
      cache := cache
      handlerInvoked := false }
  | Except.ok id =>
    match mapMethod cfg.registry call.method call.payload with
    | Except.error e =>
      { path := [GateState.received, GateState.identityExtracted, GateState.denied]
        result := GateResult.denied (some e) "not authorized"
        roundTrips := 0
        cache := cache
        handlerInvoked := false }
    | Except.ok tuple =>
      match lookupCache cfg.cacheTTL cache id tuple call.now with
      | some d => conclude d 0 cache
      | none =>
        match queryAuthority cfg authority id tuple with
        | (Except.error e, n) =>
          { path := [GateState.received, GateState.identityExtracted, GateState.tupleMapped,
              GateState.decisionPending, GateState.denied]
            result := GateResult.denied (some e) "authorization service unavailable"
            roundTrips := n
            cache := cache
            handlerInvoked := false }
        | (Except.ok d, n) =>
          conclude d n (storeCache cfg.cacheTTL cache id tuple d call.now)

/-- Modelled from the spec: an authority reply that is not an answer, that is
a network error or a timeout (absent `auth` package). -/
def AuthorityReply.isFailure : AuthorityReply → Bool
  | AuthorityReply.answer _ => false
  | _ => true

/-- Registry of the spec's scenarios: `CreateResult` and `DeleteResult`, whose
rules read the namespace from payload field "parent" and the name from "name". -/
def sampleConfig : Config :=
  { registry :=
      [("CreateResult",
          { resourceType := "result", verb := Verb.create,
            extract := fun p => ((p.fields.lookup "parent").getD "", p.fields.lookup "name") }),
        ("DeleteResult",
          { resourceType := "result", verb := Verb.delete,
            extract := fun p => ((p.fields.lookup "parent").getD "", p.fields.lookup "name") })]
    retries := 1
    cacheTTL := some 30 }

/-- Identity of the spec's scenario. -/
def svcWriter : CallIdentity := { identity := "svc:writer", attributes := [] }

/-- A `CreateResult` call in namespace "default" with the given credential. -/
def createCall (credential : Option Credential) : Call :=
  { credential := credential
    method := "CreateResult"
    payload := { fields := [("parent", "default")] }
    now := 100 }

end Gate

namespace Main

/-! ## Theorems about `main` -/

/-- C6: when `DB_USER` or `DB_PASSWORD` is empty (an unset variable reads as
empty) the run is `flag.Parse` followed by
`log.Fatal("Must provide both DB_USER and DB_PASSWORD")` and nothing else: no
DSN, no database, no server.  When both are non-empty the run goes on to open
the database with the DSN. -/
theorem main_requires_db_credentials (w : World) :
    ((Getenv w.env "DB_USER" = "" ∨ Getenv w.env "DB_PASSWORD" = "") →
        main w = [Event.flagParse,
          Event.logFatal "Must provide both DB_USER and DB_PASSWORD"]) ∧
    ((Getenv w.env "DB_USER" ≠ "" ∧ Getenv w.env "DB_PASSWORD" ≠ "") →
        ∃ rest, main w = Event.flagParse :: Event.mysqlOpen w.dsn :: rest) := by
  constructor
  · intro h
    simp [main, h]
  · rintro ⟨hu, hp⟩
    simp [main, hu, hp, World.dsn]

theorem main_requires_db_credentials_witness :
    main (happyWorld [("DB_PASSWORD", "p")]) =
        [Event.flagParse, Event.logFatal "Must provide both DB_USER and DB_PASSWORD"] ∧
    ∃ rest, main (happyWorld [("DB_USER", "u"), ("DB_PASSWORD", "p")]) =
        Event.flagParse :: Event.mysqlOpen "u:p@()/?parseTime=true" :: rest :=
  ⟨(main_requires_db_credentials (happyWorld [("DB_PASSWORD", "p")])).1 (Or.inl (by decide)),
   (main_requires_db_credentials (happyWorld [("DB_USER", "u"), ("DB_PASSWORD", "p")])).2
     ⟨by decide, by decide⟩⟩

/-- The calls made from `net.Listen` on. -/
theorem mem_listenAndServe (w : World) (ev : Event) (h : ev ∈ listenAndServe w) :
    ev = Event.netListen "tcp"
        (":" ++ (if Getenv w.env "PORT" = "" then "50051" else Getenv w.env "PORT")) ∨
      (∃ m, ev = Event.logFatalf m) ∨ (∃ m, ev = Event.logPrintf m) ∨ ev = Event.serve ∨
      ∃ m, ev = Event.logFatal m := by
  obtain ⟨env, e1, e2, e3, e4, e5, e6, e7⟩ := w
  simp only [listenAndServe, List.mem_cons] at h
  rcases h with h | h
  · exact Or.inl h
  · right
    rcases e6 with _ | e6
    · rcases e7 with _ | e7
      · simp at h
        rcases h with h | h <;> simp [h]
      · simp at h
        rcases h with h | h | h <;> simp [h]
    · simp at h
      simp [h]

/-- C7: the listener is always opened on network "tcp"; its address is ":"
followed by `PORT` when `PORT` is non-empty and ":50051" when `PORT` is empty
or unset.  Every run that gets through start-up does open that listener. -/
theorem listen_address_defaults_to_50051 (w : World) :
    (∀ network address, Event.netListen network address ∈ main w →
        network = "tcp" ∧
        (Getenv w.env "PORT" ≠ "" → address = ":" ++ Getenv w.env "PORT") ∧
        (Getenv w.env "PORT" = "" → address = ":50051") ∧
        (w.env "PORT" = none → address = ":50051")) ∧
    (w.startsUp →
        Event.netListen "tcp"
          (if Getenv w.env "PORT" = "" then ":50051" else ":" ++ Getenv w.env "PORT")
          ∈ main w) := by
  obtain ⟨env, e1, e2, e3, e4, e5, e6, e7⟩ := w
  constructor
  · intro network address h
    have hunset : env "PORT" = none → Getenv env "PORT" = "" := by
      intro h0
      simp [Getenv, h0]
    by_cases hc : Getenv env "DB_USER" = "" ∨ Getenv env "DB_PASSWORD" = ""
    · simp [main, hc] at h
    · rcases e1 with _ | e1 <;> rcases e2 with _ | e2 <;> rcases e3 with _ | e3 <;>
        rcases e4 with _ | e4 <;> rcases e5 with _ | e5 <;>
        simp [main, hc, clients, registerServers] at h
      have h2 := mem_listenAndServe _ _ h
      simp at h2
      obtain ⟨hn, ha⟩ := h2
      subst hn ha
      refine ⟨rfl, ?_, ?_, ?_⟩
      · intro hp
        simp [hp]
      · intro hp
        simp [hp]
      · intro hp
        simp [hunset hp]
  · rintro ⟨hu, hp, h1, h2, h3, h4, h5⟩
    simp only at hu hp h1 h2 h3 h4 h5
    subst h1 h2 h3 h4 h5
    by_cases hport : Getenv env "PORT" = ""
    · simp [main, hu, hp, clients, registerServers, listenAndServe, hport]
    · simp [main, hu, hp, clients, registerServers, listenAndServe, hport]

theorem listen_address_defaults_to_50051_witness :
    Event.netListen "tcp" ":50051" ∈ main (happyWorld [("DB_USER", "u"), ("DB_PASSWORD", "p")]) ∧
    Event.netListen "tcp" ":8443" ∈
      main (happyWorld [("DB_USER", "u"), ("DB_PASSWORD", "p"), ("PORT", "8443")]) ∧
    ((happyWorld [("DB_USER", "u"), ("DB_PASSWORD", "p"), ("PORT", "8443")]).env "PORT" ≠ none ∧
      ":8443" = ":" ++
        Getenv (happyWorld [("DB_USER", "u"), ("DB_PASSWORD", "p"), ("PORT", "8443")]).env "PORT") :=
  ⟨(listen_address_defaults_to_50051 (happyWorld [("DB_USER", "u"), ("DB_PASSWORD", "p")])).2
      ⟨by decide, by decide, rfl, rfl, rfl, rfl, rfl⟩,
   (listen_address_defaults_to_50051
      (happyWorld [("DB_USER", "u"), ("DB_PASSWORD", "p"), ("PORT", "8443")])).2
      ⟨by decide, by decide, rfl, rfl, rfl, rfl, rfl⟩,
   by decide,
   ((listen_address_defaults_to_50051
      (happyWorld [("DB_USER", "u"), ("DB_PASSWORD", "p"), ("PORT", "8443")])).1 "tcp" ":8443"
      (by decide)).2.1 (by decide)⟩

/-- No Results service is registered once `main` has moved on to listening. -/
theorem filter_registration_listenAndServe (w : World) :
    (listenAndServe w).filter Event.isResultsRegistration = [] := by
  obtain ⟨env, e1, e2, e3, e4, e5, e6, e7⟩ := w
  rcases e6 with _ | e6 <;> rcases e7 with _ | e7 <;>
    simp [listenAndServe, Event.isResultsRegistration]

/-- C1: on every run, a Results service that gets registered on the gRPC
server is the value returned by `v1alpha2.New(db, WithAuth(NewRBAC(k8s)))` with
`k8s` the clientset built from the in-cluster configuration, so no run
registers a service built without the auth option.  On every run that reaches
`s.Serve` that service has been built by that call and is the one and only
Results service registered. -/
theorem registered_results_server_has_auth (w : World) :
    (∀ srv, Event.registerResultsServer srv ∈ main w →
        srv = ResultsServer.new (DB.gormOpen w.dsn)
          [ServerOption.withAuth
            (Checker.newRBAC (Clientset.newForConfig RestConfig.inClusterConfig))]) ∧
    (Event.serve ∈ main w →
        (main w).filter Event.isResultsRegistration =
          [Event.registerResultsServer (guardedServer w.dsn)] ∧
        ∃ rest, main w =
          [Event.flagParse, Event.mysqlOpen w.dsn, Event.inClusterConfig,
            Event.newForConfig RestConfig.inClusterConfig,
            Event.newServerTLSFromFile "/etc/tls/tls.crt" "/etc/tls/tls.key",
            Event.v1alpha2New (DB.gormOpen w.dsn)
              [ServerOption.withAuth
                (Checker.newRBAC (Clientset.newForConfig RestConfig.inClusterConfig))],
            Event.grpcNewServer
              (Creds.newServerTLSFromFile "/etc/tls/tls.crt" "/etc/tls/tls.key"),
            Event.registerResultsServer (guardedServer w.dsn)] ++ rest ∧
          Event.serve ∈ rest) := by
  by_cases hc : Getenv w.env "DB_USER" = "" ∨ Getenv w.env "DB_PASSWORD" = ""
  · simp [main, hc]
  · have hfilter := filter_registration_listenAndServe w
    obtain ⟨env, e1, e2, e3, e4, e5, e6, e7⟩ := w
    constructor
    · intro srv h
      rcases e1 with _ | e1 <;> rcases e2 with _ | e2 <;> rcases e3 with _ | e3 <;>
        rcases e4 with _ | e4 <;> rcases e5 with _ | e5 <;>
        simp [main, hc, clients, registerServers] at h
      rcases h with h | h
      · simpa [World.dsn] using h
      · have h2 := mem_listenAndServe _ _ h
        simp at h2
    · intro h
      rcases e1 with _ | e1 <;> rcases e2 with _ | e2 <;> rcases e3 with _ | e3 <;>
        rcases e4 with _ | e4 <;> rcases e5 with _ | e5 <;>
        simp [main, hc, clients, registerServers] at h
      simp [main, hc, clients, registerServers, Event.isResultsRegistration, hfilter,
        guardedServer, World.dsn, h]

theorem registered_results_server_has_auth_witness :
    (main (happyWorld [("DB_USER", "u"), ("DB_PASSWORD", "p")])).filter
        Event.isResultsRegistration =
      [Event.registerResultsServer
        (ResultsServer.new (DB.gormOpen "u:p@()/?parseTime=true")
          [ServerOption.withAuth
            (Checker.newRBAC (Clientset.newForConfig RestConfig.inClusterConfig))])] :=
  ((registered_results_server_has_auth
    (happyWorld [("DB_USER", "u"), ("DB_PASSWORD", "p")])).2 (by decide)).1

/-- C2: on every run in which `v1alpha2.New` returns a non-nil error `e`, the
call is followed only by `log.Fatalf("failed to create server: %v", e)`, which
ends the process: the run creates no gRPC server, registers no service, opens
no listener and never calls `Serve`. -/
theorem new_error_fails_startup (w : World) (e : String) (herr : w.newErr = some e) :
    (∀ db opts, Event.v1alpha2New db opts ∈ main w →
      main w =
        [Event.flagParse, Event.mysqlOpen w.dsn, Event.inClusterConfig,
          Event.newForConfig RestConfig.inClusterConfig,
          Event.newServerTLSFromFile "/etc/tls/tls.crt" "/etc/tls/tls.key",
          Event.v1alpha2New db opts,
          Event.logFatalf ("failed to create server: " ++ e)]) ∧
    ∀ ev ∈ main w, ev.isServerCall = false := by
  obtain ⟨env, e1, e2, e3, e4, e5, e6, e7⟩ := w
  simp only at herr
  subst herr
  by_cases hc : Getenv env "DB_USER" = "" ∨ Getenv env "DB_PASSWORD" = ""
  · simp [main, hc, Event.isServerCall]
  · constructor
    · intro db opts hcall
      rcases e1 with _ | e1 <;> rcases e2 with _ | e2 <;> rcases e3 with _ | e3 <;>
        rcases e4 with _ | e4 <;>
        simp [main, hc, clients, registerServers] at hcall
      obtain ⟨hdb, hopts⟩ := hcall
      subst hdb hopts
      simp [main, hc, clients, registerServers, World.dsn]
    · rcases e1 with _ | e1 <;> rcases e2 with _ | e2 <;> rcases e3 with _ | e3 <;>
        rcases e4 with _ | e4 <;>
        simp [main, hc, clients, registerServers, Event.isServerCall]

theorem new_error_fails_startup_witness :
    main { happyWorld [("DB_USER", "u"), ("DB_PASSWORD", "p")] with newErr := some "no checker" } =
      [Event.flagParse, Event.mysqlOpen "u:p@()/?parseTime=true", Event.inClusterConfig,
        Event.newForConfig RestConfig.inClusterConfig,
        Event.newServerTLSFromFile "/etc/tls/tls.crt" "/etc/tls/tls.key",
        Event.v1alpha2New (DB.gormOpen "u:p@()/?parseTime=true")
          [ServerOption.withAuth
            (Checker.newRBAC (Clientset.newForConfig RestConfig.inClusterConfig))],
        Event.logFatalf "failed to create server: no checker"] :=
  (new_error_fails_startup
    { happyWorld [("DB_USER", "u"), ("DB_PASSWORD", "p")] with newErr := some "no checker" }
    "no checker" rfl).1 (DB.gormOpen "u:p@()/?parseTime=true")
    [ServerOption.withAuth (Checker.newRBAC (Clientset.newForConfig RestConfig.inClusterConfig))]
    (by decide)

/-! ## The DSN -/

/-- Characters of the DSN, field by field. -/
theorem dbURI_data (u p r a n : String) :
    (dbURI u p r a n).data =
      u.data ++ ':' :: (p.data ++ '@' :: (r.data ++ '(' :: (a.data ++ ')' :: '/' ::
        (n.data ++ "?parseTime=true".data)))) := by
  simp [dbURI, String.data_append]

/-- A list that contains `c` once splits at `c` in one way only. -/
theorem split_unique {α : Type} (c : α) (x y x2 y2 : List α) (hx : c ∉ x) (hy : c ∉ y)
    (h : x2 ++ c :: y2 = x ++ c :: y) : x2 = x ∧ y2 = y := by
  induction x generalizing x2 with
  | nil =>
    cases x2 with
    | nil => simpa using h
    | cons d x3 =>
      simp only [List.nil_append, List.cons_append, List.cons.injEq] at h
      obtain ⟨-, h2⟩ := h
      exact absurd (h2 ▸ List.mem_append_right x3 (List.mem_cons_self c y2)) hy
  | cons b xs ih =>
    cases x2 with
    | nil =>
      simp only [List.nil_append, List.cons_append, List.cons.injEq] at h
      exact absurd (h.1 ▸ List.mem_cons_self c xs) hx
    | cons d x3 =>
      simp only [List.cons_append, List.cons.injEq] at h
      obtain ⟨hd, h2⟩ := h
      obtain ⟨h3, h4⟩ := ih x3 (fun hm => hx (List.mem_cons_of_mem _ hm)) h2
      exact ⟨by rw [hd, h3], h4⟩

/-- Splitting at `c` a list whose first `c` follows `x`: either the split is
the one at that first `c`, or it is at a later `c`, inside `y`. -/
theorem split_first {α : Type} (c : α) (x y x2 y2 : List α) (hx : c ∉ x)
    (h : x2 ++ c :: y2 = x ++ c :: y) :
    (x2 = x ∧ y2 = y) ∨ ∃ z, z ++ c :: y2 = y := by
  induction x generalizing x2 with
  | nil =>
    cases x2 with
    | nil => exact Or.inl (by simpa using h)
    | cons d x3 =>
      simp only [List.nil_append, List.cons_append, List.cons.injEq] at h
      exact Or.inr ⟨x3, h.2⟩
  | cons b xs ih =>
    cases x2 with
    | nil =>
      simp only [List.nil_append, List.cons_append, List.cons.injEq] at h
      exact absurd (h.1 ▸ List.mem_cons_self c xs) hx
    | cons d x3 =>
      simp only [List.cons_append, List.cons.injEq] at h
      obtain ⟨hd, h2⟩ := h
      rcases ih x3 (fun hm => hx (List.mem_cons_of_mem _ hm)) h2 with ⟨h3, h4⟩ | h3
      · exact Or.inl ⟨by rw [hd, h3], h4⟩
      · exact Or.inr h3

/-- What follows a `c` found in `p ++ d :: t`, when `p` has no `c` and `d` is
not `c`, lies inside `t`. -/
theorem mem_of_split_after {α : Type} (c d : α) (p t z y2 : List α) (hp : c ∉ p)
    (hcd : c ≠ d) (h : z ++ c :: y2 = p ++ d :: t) : ∀ e ∈ y2, e ∈ t := by
  induction p generalizing z with
  | nil =>
    cases z with
    | nil =>
      simp only [List.nil_append, List.cons.injEq] at h
      exact absurd h.1 hcd
    | cons b z2 =>
      simp only [List.nil_append, List.cons_append, List.cons.injEq] at h
      intro e he
      rw [← h.2]
      exact List.mem_append_right z2 (List.mem_cons_of_mem c he)
  | cons b ps ih =>
    cases z with
    | nil =>
      simp only [List.nil_append, List.cons_append, List.cons.injEq] at h
      exact absurd (h.1 ▸ List.mem_cons_self c ps) hp
    | cons b2 z2 =>
      simp only [List.cons_append, List.cons.injEq] at h
      exact ih z2 (fun hm => hp (List.mem_cons_of_mem _ hm)) h.2

/-- Fields that keep clear of the separators that could end them early are
recovered from the DSN: no `:` in user and password, no `@` after the user,
no `(` after the password and no `)` after the protocol. -/
theorem splitsBack_of (u p r a n : String)
    (h1 : ':' ∉ u.data ++ p.data)
    (h2 : '@' ∉ p.data ++ (r.data ++ (a.data ++ n.data)))
    (h3 : '(' ∉ r.data ++ (a.data ++ n.data))
    (h4 : ')' ∉ a.data ++ n.data) : SplitsBack u p r a n := by
  intro u2 p2 r2 a2 n2 h
  have hd := congrArg String.data h
  rw [dbURI_data, dbURI_data] at hd
  simp only [List.mem_append, not_or] at h1 h2 h3 h4
  have hs2 : '@' ∉ "?parseTime=true".data := by decide
  have hs3 : '(' ∉ "?parseTime=true".data := by decide
  have hs4 : ')' ∉ "?parseTime=true".data := by decide
  have hat : '@' ∉ r.data ++ '(' :: (a.data ++ ')' :: '/' :: (n.data ++ "?parseTime=true".data)) := by
    simp [h2.2.1, h2.2.2.1, h2.2.2.2, hs2]
  rcases split_first ':' _ _ _ _ h1.1 hd with ⟨hu, hd⟩ | ⟨z, hz⟩
  · obtain ⟨hp, hd⟩ := split_unique '@' _ _ _ _ h2.1 hat hd
    obtain ⟨hr, hd⟩ := split_unique '(' _ _ _ _ h3.1
      (by simp [h3.2.1, h3.2.2, hs3]) hd
    obtain ⟨ha, hd⟩ := split_unique ')' _ _ _ _ h4.1
      (by simp [h4.2, hs4]) hd
    simp only [List.cons.injEq, true_and] at hd
    have hn := List.append_cancel_right hd
    exact ⟨String.ext hu, String.ext hp, String.ext hr, String.ext ha, String.ext hn⟩
  · exact absurd
      (mem_of_split_after ':' '@' _ _ _ _ h1.2 (by decide) hz '@'
        (List.mem_append_right _ (List.mem_cons_self _ _))) hat

/-- The database is opened once at most, with the DSN built from the
environment. -/
theorem mysqlOpen_mem_main (w : World) (dsn : String) (h : Event.mysqlOpen dsn ∈ main w) :
    dsn = w.dsn := by
  by_cases hc : Getenv w.env "DB_USER" = "" ∨ Getenv w.env "DB_PASSWORD" = ""
  · simp [main, hc] at h
  · obtain ⟨env, e1, e2, e3, e4, e5, e6, e7⟩ := w
    rcases e1 with _ | e1 <;> rcases e2 with _ | e2 <;> rcases e3 with _ | e3 <;>
      rcases e4 with _ | e4 <;> rcases e5 with _ | e5 <;>
      simp [main, hc, clients, registerServers] at h <;>
      first
        | exact h
        | (rcases h with h | h
           · exact h
           · have h2 := mem_listenAndServe _ _ h
             simp at h2)

/-- C8, as stated, fails: with the usual `DB_ADDR` of the form host:port the
address contains the delimiter `:`, the DSN passed to `mysql.Open` is
`user:password@tcp(localhost:5555)/dbname?parseTime=true`, and that DSN still
splits back into exactly the five fields it was built from. -/
theorem dsn_with_port_splits_back :
    Event.mysqlOpen "user:password@tcp(localhost:5555)/dbname?parseTime=true" ∈
      main (happyWorld [("DB_USER", "user"), ("DB_PASSWORD", "password"),
        ("DB_PROTOCOL", "tcp"), ("DB_ADDR", "localhost:5555"), ("DB_NAME", "dbname")]) ∧
    SplitsBack "user" "password" "tcp" "localhost:5555" "dbname" ∧
    ¬ (delimiterFree "user" ∧ delimiterFree "password" ∧ delimiterFree "tcp" ∧
        delimiterFree "localhost:5555" ∧ delimiterFree "dbname") :=
  ⟨by decide,
   splitsBack_of "user" "password" "tcp" "localhost:5555" "dbname"
     (by decide) (by decide) (by decide) (by decide),
   by decide⟩

/-- C8 (amended): for non-empty `DB_USER` u and `DB_PASSWORD` p and any
`DB_PROTOCOL` r, `DB_ADDR` a, `DB_NAME` n, the string passed to `mysql.Open` is
exactly u ++ ":" ++ p ++ "@" ++ r ++ "(" ++ a ++ ")/" ++ n ++ "?parseTime=true",
the values being inserted verbatim: a `:` inside the user is not told apart
from the separator.  The DSN splits back into those same five fields whenever
the values contain none of the delimiter characters. -/
theorem dsn_is_verbatim_format (w : World) (u p r a n : String)
    (hu : Getenv w.env "DB_USER" = u) (hp : Getenv w.env "DB_PASSWORD" = p)
    (hr : Getenv w.env "DB_PROTOCOL" = r) (ha : Getenv w.env "DB_ADDR" = a)
    (hn : Getenv w.env "DB_NAME" = n) (hune : u ≠ "") (hpne : p ≠ "") :
    Event.mysqlOpen (u ++ ":" ++ p ++ "@" ++ r ++ "(" ++ a ++ ")/" ++ n ++ "?parseTime=true")
      ∈ main w ∧
    (∀ dsn, Event.mysqlOpen dsn ∈ main w →
      dsn = u ++ ":" ++ p ++ "@" ++ r ++ "(" ++ a ++ ")/" ++ n ++ "?parseTime=true") ∧
    (∀ x : String, dbURI (u ++ ":" ++ p) x r a n = dbURI u (p ++ ":" ++ x) r a n) ∧
    (delimiterFree u → delimiterFree p → delimiterFree r → delimiterFree a →
      delimiterFree n → SplitsBack u p r a n) := by
  have hdsn : w.dsn = u ++ ":" ++ p ++ "@" ++ r ++ "(" ++ a ++ ")/" ++ n ++ "?parseTime=true" := by
    simp [World.dsn, dbURI, hu, hp, hr, ha, hn]
  refine ⟨?_, ?_, ?_, ?_⟩
  · rw [← hdsn]
    subst hu hp
    simp [main, hune, hpne, World.dsn]
  · intro dsn h
    rw [← hdsn]
    exact mysqlOpen_mem_main w dsn h
  · intro x
    simp [dbURI, String.append_assoc]
  · intro du dp dr da dn
    have hmem : ∀ (c : Char) (s : String), c ∈ delimiters → delimiterFree s → c ∉ s.data :=
      fun c s hc hs hcs => hs c hcs hc
    apply splitsBack_of
    · simp [hmem ':' u (by decide) du, hmem ':' p (by decide) dp]
    · simp [hmem '@' p (by decide) dp, hmem '@' r (by decide) dr, hmem '@' a (by decide) da,
        hmem '@' n (by decide) dn]
    · simp [hmem '(' r (by decide) dr, hmem '(' a (by decide) da, hmem '(' n (by decide) dn]
    · simp [hmem ')' a (by decide) da, hmem ')' n (by decide) dn]

theorem dsn_is_verbatim_format_witness :
    Event.mysqlOpen "results:s3cret@tcp(mysql)/tekton?parseTime=true" ∈
      main (happyWorld [("DB_USER", "results"), ("DB_PASSWORD", "s3cret"),
        ("DB_PROTOCOL", "tcp"), ("DB_ADDR", "mysql"), ("DB_NAME", "tekton")]) ∧
    SplitsBack "results" "s3cret" "tcp" "mysql" "tekton" :=
  ⟨(dsn_is_verbatim_format
      (happyWorld [("DB_USER", "results"), ("DB_PASSWORD", "s3cret"),
        ("DB_PROTOCOL", "tcp"), ("DB_ADDR", "mysql"), ("DB_NAME", "tekton")])
      "results" "s3cret" "tcp" "mysql" "tekton"
      (by decide) (by decide) (by decide) (by decide) (by decide) (by decide) (by decide)).1,
   (dsn_is_verbatim_format
      (happyWorld [("DB_USER", "results"), ("DB_PASSWORD", "s3cret"),
        ("DB_PROTOCOL", "tcp"), ("DB_ADDR", "mysql"), ("DB_NAME", "tekton")])
      "results" "s3cret" "tcp" "mysql" "tekton"
      (by decide) (by decide) (by decide) (by decide) (by decide) (by decide)
      (by decide)).2.2.2 (by decide) (by decide) (by decide) (by decide) (by decide)⟩

end Main

namespace Gate

/-! ## Theorems about the gate -/

/-- A method no registry entry names has no mapping rule. -/
theorem findRule_eq_none (registry : List (String × MappingRule)) (method : String)
    (h : ∀ entry ∈ registry, entry.1 ≠ method) : findRule registry method = none := by
  simp only [findRule, Option.map_eq_none', List.find?_eq_none]
  intro entry hmem
  simpa using h entry hmem

/-- An authority that fails every attempt of the retry budget makes the client
give up with `AuthorityUnavailableError` after `retries + 1` round-trips. -/
theorem queryFrom_unavailable (authority : Authority) (id : CallIdentity)
    (tuple : AuthorizationTuple) (retries attempt : Nat)
    (h : ∀ j, j ≤ retries → (authority (attempt + j) id tuple).isFailure = true) :
    queryFrom authority id tuple attempt retries =
      (Except.error GateError.authorityUnavailableError, attempt + retries + 1) := by
  induction retries generalizing attempt with
  | zero =>
    have h0 := h 0 (Nat.le_refl 0)
    simp only [Nat.add_zero] at h0
    unfold queryFrom
    cases hr : authority attempt id tuple <;> simp [hr, AuthorityReply.isFailure] at h0 ⊢
  | succ n ih =>
    have h0 := h 0 (Nat.zero_le _)
    simp only [Nat.add_zero] at h0
    have hrest : queryFrom authority id tuple (attempt + 1) n =
        (Except.error GateError.authorityUnavailableError, attempt + 1 + n + 1) := by
      apply ih
      intro j hj
      have := h (j + 1) (Nat.succ_le_succ hj)
      rwa [show attempt + (j + 1) = attempt + 1 + j by omega] at this
    unfold queryFrom
    cases hr : authority attempt id tuple <;>
      simp [hr, AuthorityReply.isFailure] at h0 ⊢ <;>
      (rw [hrest]; simp; omega)

/-- C5: a call with no credential ends in `AuthenticationError`, never in
`Allowed`, whatever the method, payload, registry, cache and authority: the
gate goes from `Received` straight to `Errored`, so it rejects before any
method-to-tuple mapping, asks the authority nothing and does not invoke the
handler. -/
theorem no_credential_is_authentication_error (cfg : Config) (authority : Authority)
    (cache : List CacheEntry) (call : Call) (h : call.credential = none) :
    (gate cfg authority cache call).result =
        GateResult.errored GateError.authenticationError "not authenticated" ∧
      (gate cfg authority cache call).result ≠ GateResult.allowed ∧
      (gate cfg authority cache call).path = [GateState.received, GateState.errored] ∧
      GateState.tupleMapped ∉ (gate cfg authority cache call).path ∧
      (gate cfg authority cache call).roundTrips = 0 ∧
      (gate cfg authority cache call).handlerInvoked = false := by
  simp [gate, h, extractIdentity]

theorem no_credential_is_authentication_error_witness :
    (gate sampleConfig (fun _ _ _ => AuthorityReply.answer true) [] (createCall none)).result =
      GateResult.errored GateError.authenticationError "not authenticated" :=
  (no_credential_is_authentication_error sampleConfig (fun _ _ _ => AuthorityReply.answer true) []
    (createCall none) rfl).1

/-- C3: a call to a method that no registry entry names is never allowed and
never reaches the handler, and no authority round-trip is made for it; for
every identity and every payload the gate's result is `Denied` with
`UnmappedMethodError`. -/
theorem unmapped_method_is_denied (cfg : Config) (authority : Authority)
    (cache : List CacheEntry) (call : Call)
    (h : ∀ entry ∈ cfg.registry, entry.1 ≠ call.method) :
    (gate cfg authority cache call).result ≠ GateResult.allowed ∧
      (gate cfg authority cache call).handlerInvoked = false ∧
      (gate cfg authority cache call).roundTrips = 0 ∧
      ∀ id, call.credential = some (Credential.valid id) →
        (gate cfg authority cache call).result =
            GateResult.denied (some GateError.unmappedMethodError) "not authorized" ∧
          (gate cfg authority cache call).path =
            [GateState.received, GateState.identityExtracted, GateState.denied] := by
  have hnone := findRule_eq_none cfg.registry call.method h
  cases hc : extractIdentity call.credential with
  | error e =>
    refine ⟨by simp [gate, hc], by simp [gate, hc], by simp [gate, hc], ?_⟩
    intro id hid
    simp [hid, extractIdentity] at hc
  | ok id0 =>
    simp [gate, hc, mapMethod, hnone]

theorem unmapped_method_is_denied_witness :
    (gate sampleConfig (fun _ _ _ => AuthorityReply.answer true) []
        { createCall (some (Credential.valid svcWriter)) with method := "DropEverything" }).result =
      GateResult.denied (some GateError.unmappedMethodError) "not authorized" :=
  ((unmapped_method_is_denied sampleConfig (fun _ _ _ => AuthorityReply.answer true) []
    { createCall (some (Credential.valid svcWriter)) with method := "DropEverything" }
    (by decide)).2.2.2 svcWriter rfl).1

/-- C4: for every identity and every authorization tuple, a call on which the
authority is consulted and every attempt of the authority client times out or
returns an error ends in `Denied` with the reason "authorization service
unavailable": it is not allowed, the handler is not invoked, and nothing is
put into the cache. -/
theorem authority_failure_is_denied (cfg : Config) (authority : Authority)
    (cache : List CacheEntry) (call : Call) (id : CallIdentity) (tuple : AuthorizationTuple)
    (hid : call.credential = some (Credential.valid id))
    (hmap : mapMethod cfg.registry call.method call.payload = Except.ok tuple)
    (hmiss : lookupCache cfg.cacheTTL cache id tuple call.now = none)
    (hfail : ∀ attempt, attempt ≤ cfg.retries → (authority attempt id tuple).isFailure = true) :
    (gate cfg authority cache call).result =
        GateResult.denied (some GateError.authorityUnavailableError)
          "authorization service unavailable" ∧
      (gate cfg authority cache call).result ≠ GateResult.allowed ∧
      (gate cfg authority cache call).handlerInvoked = false ∧
      (gate cfg authority cache call).roundTrips = cfg.retries + 1 ∧
      (gate cfg authority cache call).cache = cache := by
  have hq : queryAuthority cfg authority id tuple =
      (Except.error GateError.authorityUnavailableError, cfg.retries + 1) := by
    have := queryFrom_unavailable authority id tuple cfg.retries 0
      (by intro j hj; simpa using hfail j hj)
    simpa [queryAuthority] using this
  simp [gate, hid, extractIdentity, hmap, hmiss, hq]

theorem authority_failure_is_denied_witness :
    (gate sampleConfig (fun _ _ _ => AuthorityReply.timeout) []
        (createCall (some (Credential.valid svcWriter)))).result =
      GateResult.denied (some GateError.authorityUnavailableError)
        "authorization service unavailable" :=
  (authority_failure_is_denied sampleConfig (fun _ _ _ => AuthorityReply.timeout) []
    (createCall (some (Credential.valid svcWriter))) svcWriter
    { ns := "default", resourceType := "result", verb := Verb.create, resourceName := none }
    rfl rfl (by decide) (fun _ _ => rfl)).1

end Gate
